import Mathlib

/-!
Verification development for the `zapier_capi_historical_event_sender`
repository: a shallow embedding in Lean 4 of the record-validation,
payload-construction and rate-limited dispatch logic of its two senders,

* `WebhookSender` (src/unnamed/part_000, second/extended variant,
  lines 374-1052): single-unit sequential dispatch with per-record
  validation, and
* `LinkedInCAPISender` (src/linkedin-capi-sender.js): batched BATCH_CREATE
  dispatch with per-element response processing and a single retry pass.

The validator methods (`validateCurrencyData`, `validateUserInfo`,
`validateEventData`, `isValidConversionTime`) are duplicated verbatim in the
two source files; they are embedded once below and shared.

Modelling conventions:
* A CSV record is a structure of the nine column values the validators and
  payload builders read; a column missing from the CSV behaves in the JS
  code exactly like `""` (every access is guarded by truthiness plus
  `trim() !== ''`), so absent fields are modelled as `""`.
* `Date.now()` is modelled as an explicit `now : Int` parameter, fixed for
  a run (the code re-reads the clock, but no claim depends on the clock
  advancing during a run).
* JS `parseInt` / `parseFloat` are modelled for decimal literals
  (optional sign, digits, and for `parseFloat` an optional fraction);
  the hex-prefix / exponent forms of the JS builtins do not occur in the
  CSV data shapes the program reads and are not modelled.
* The SHA-256 digest of `hashEmail` is modelled abstractly by a `Digest`
  structure recording the exact preimage the code hashes
  (the lowercased email); no claim depends on the digest bits.
* Network I/O is an oracle `Nat → ApiOutcome` indexed by the number of
  HTTP calls made so far; batch durations (used by the rate limiter) are a
  second oracle `Nat → ℚ` indexed by the number of batches processed.
* Console output and the api-stats histogram are not modelled; the
  per-batch `skippedRecordsCount` values that the code computes, logs and
  returns are accumulated in the model state field `skippedEvents` so that
  run-end accounting can be stated.
-/

namespace ZapierCapi

/-- JS whitespace for `String.prototype.trim` (ASCII forms). -/
def isJsWhitespace (c : Char) : Bool :=
  c == ' ' || c == '\t' || c == '\n' || c == '\r'

/-- Models JS `s.trim()`. -/
def jsTrim (s : String) : String :=
  (((s.toList.dropWhile isJsWhitespace).reverse.dropWhile isJsWhitespace).reverse).asString

/-- Models JS `s.toUpperCase()` on the ASCII range used by currency codes. -/
def jsToUpper (s : String) : String :=
  (s.toList.map Char.toUpper).asString

/-- Models JS `s.toLowerCase()` on the ASCII range used by emails. -/
def jsToLower (s : String) : String :=
  (s.toList.map Char.toLower).asString

/-- Models the JS idiom `v && v.trim() !== ''` (field present and non-blank). -/
def nonBlank (s : String) : Bool :=
  jsTrim s ≠ ""

/-- Decimal digit run to a natural number. -/
def digitsToNat (ds : List Char) : Nat :=
  ds.foldl (fun a c => a * 10 + (c.toNat - '0'.toNat)) 0

/-- Longest leading decimal-digit run; `none` when there is none (JS `NaN`). -/
def digitsPrefixVal (cs : List Char) : Option Nat :=
  let ds := cs.takeWhile Char.isDigit
  if ds.isEmpty then none else some (digitsToNat ds)

/-- Models JS `parseInt(s)` (radix 10): skip whitespace, optional sign,
longest digit prefix; `none` models `NaN`. -/
def jsParseInt (s : String) : Option Int :=
  match (jsTrim s).toList with
  | '-' :: t => (digitsPrefixVal t).map (fun n => -(n : Int))
  | '+' :: t => (digitsPrefixVal t).map (fun n => (n : Int))
  | t => (digitsPrefixVal t).map (fun n => (n : Int))

/-- Value of `⟨intDs⟩.⟨fracDs⟩` as a rational. -/
def decimalVal (intDs fracDs : List Char) : ℚ :=
  (digitsToNat intDs : ℚ) + (digitsToNat fracDs : ℚ) / ((10 : ℚ) ^ fracDs.length)

/-- Unsigned part of JS `parseFloat`: digits, optional `.` and more digits;
at least one digit overall. -/
def floatPrefixVal (cs : List Char) : Option ℚ :=
  let intDs := cs.takeWhile Char.isDigit
  let rest := cs.drop intDs.length
  let fracDs :=
    match rest with
    | '.' :: r => r.takeWhile Char.isDigit
    | _ => []
  if intDs.isEmpty && fracDs.isEmpty then none
  else some (decimalVal intDs fracDs)

/-- Models JS `parseFloat(s)` for decimal literals; `none` models `NaN`. -/
def jsParseFloat (s : String) : Option ℚ :=
  match (jsTrim s).toList with
  | '-' :: t => (floatPrefixVal t).map (fun q => -q)
  | '+' :: t => floatPrefixVal t
  | t => floatPrefixVal t

/-- A parsed CSV record: the column values read by the validators and the
payload builders. A column absent from the CSV file behaves like `""` at
every use site (truthiness followed by `trim() !== ''`), so missing values
are represented by `""`. -/
structure Record where
  email : String := ""
  firstName : String := ""
  lastName : String := ""
  title : String := ""
  companyName : String := ""
  countryCode : String := ""
  currencyCode : String := ""
  conversionValue : String := ""
  conversionTime : String := ""
deriving DecidableEq, Repr

/-- The record with every field empty (also the stand-in for the JS
`undefined` produced by an out-of-range `records[index]`; see
`applyRespElement`). -/
def emptyRecord : Record := {}

/-- 90 days in milliseconds: the constant `90 * 24 * 60 * 60 * 1000` of
`isValidConversionTime`. -/
def ninetyDaysMs : Int := 90 * 24 * 60 * 60 * 1000

/-- `isValidConversionTime(timestamp)` (identical in both source files):
`if (!timestamp || isNaN(timestamp)) return false;` then
`timestamp >= now - 90d && timestamp <= now`. `none` models `NaN`; note
that the JS truthiness guard `!timestamp` also rejects the integer `0`. -/
def isValidConversionTime (now : Int) (timestamp : Option Int) : Bool :=
  match timestamp with
  | none => false
  | some t =>
      if t = 0 then false
      else decide (now - ninetyDaysMs ≤ t) && decide (t ≤ now)

/-- Result of `validateCurrencyData` (the `valid` field of the JS object is
the constant `true` and is dropped). When `shouldInclude` is `false` the
JS object simply lacks the `currencyCode`/`conversionValue` properties;
they are defaulted here and never read in that case. -/
structure CurrencyValidation where
  shouldInclude : Bool
  currencyCode : String := ""
  conversionValue : ℚ := 0
  warning : Option String := none
deriving DecidableEq, Repr

/-- `/^[A-Z]{3}$/.test s`. -/
def isThreeUpperAlpha (s : String) : Bool :=
  let cs := s.toList
  cs.length == 3 && cs.all (fun c => 'A' ≤ c && c ≤ 'Z')

/-- `validateCurrencyData(record)` (linkedin-capi-sender.js lines 441-485;
identical copy in part_000 lines 685-729). -/
def validateCurrencyData (r : Record) : CurrencyValidation :=
  let hasCurrencyCode := nonBlank r.currencyCode
  let hasConversionValue := nonBlank r.conversionValue
  if !hasCurrencyCode && !hasConversionValue then
    { shouldInclude := false }
  else if !hasCurrencyCode || !hasConversionValue then
    { shouldInclude := false
      warning := some "Currency data incomplete - both currencyCode and conversionValue required, ignoring both fields" }
  else
    let currencyCode := jsToUpper (jsTrim r.currencyCode)
    if !isThreeUpperAlpha currencyCode then
      { shouldInclude := false
        warning := some "Invalid currencyCode format - must be 3-character ISO code, ignoring currency data" }
    else
      match jsParseFloat r.conversionValue with
      | none =>
          { shouldInclude := false
            warning := some "Invalid conversionValue - must be a number >= 0, ignoring currency data" }
      | some conversionValue =>
          if conversionValue < 0 then
            { shouldInclude := false
              warning := some "Invalid conversionValue - must be a number >= 0, ignoring currency data" }
          else
            { shouldInclude := true, currencyCode := currencyCode,
              conversionValue := conversionValue }

/-- Result of `validateUserInfo` (its constant `valid: true` dropped). -/
structure UserInfoValidation where
  includeUserInfo : Bool
  warning : Option String := none
deriving DecidableEq, Repr

/-- `record[f] && record[f].trim() !== ''` for some f among
title/companyName/countryCode, i.e. the `hasUserInfo` test of
`validateUserInfo`. -/
def hasUserInfoTrigger (r : Record) : Bool :=
  nonBlank r.title || nonBlank r.companyName || nonBlank r.countryCode

/-- `validateUserInfo(record)` (linkedin-capi-sender.js lines 488-517;
identical copy in part_000 lines 732-761). -/
def validateUserInfo (r : Record) : UserInfoValidation :=
  if !hasUserInfoTrigger r then
    { includeUserInfo := false }
  else
    let hasFirstName := nonBlank r.firstName
    let hasLastName := nonBlank r.lastName
    if hasFirstName && hasLastName then
      { includeUserInfo := true }
    else
      let missingFields :=
        (if !hasFirstName then ["firstName"] else []) ++
        (if !hasLastName then ["lastName"] else [])
      let joined := String.intercalate ", " missingFields
      { includeUserInfo := false
        warning := some s!"User information detected but missing required fields ({joined}). Excluding all user information fields (firstName, lastName, title, companyName, countryCode) from this record." }

/-- Result of `validateEventData`: the JS method returns `false` (modelled
by `valid := false`) or `{ valid: true, includeUserInfo }`. The reject and
warning strings it prints are kept so the embedding preserves the full
decision. -/
structure EventValidation where
  valid : Bool
  includeUserInfo : Bool
  errors : List String := []
  warnings : List String := []
deriving DecidableEq, Repr

/-- The timestamp-recency errors block of `validateEventData` (step 3):
only checked when `useConversionTime && !resetOldTimestamps &&
record.conversionTime`, and only when `parseInt` succeeds. -/
def conversionTimeErrors (useConversionTime resetOldTimestamps : Bool)
    (now : Int) (r : Record) : List String :=
  if useConversionTime && !resetOldTimestamps && r.conversionTime ≠ "" then
    match jsParseInt r.conversionTime with
    | some t =>
        if !isValidConversionTime now (some t) then
          let daysAgo := Int.fdiv (now - t) (1000 * 60 * 60 * 24)
          [s!"ConversionTime is {daysAgo} days old (beyond 90-day LinkedIn CAPI limit)"]
        else []
    | none => []
  else []

/-- `validateEventData(record, index)` (linkedin-capi-sender.js lines
520-577; identical copy in part_000 lines 764-821 up to the wording of the
timestamp reject string). The `index` argument only feeds console output
and is dropped. -/
def validateEventData (useConversionTime resetOldTimestamps : Bool)
    (now : Int) (r : Record) : EventValidation :=
  let emailErrors :=
    if !nonBlank r.email then ["Missing required email field"] else []
  let userInfoValidation := validateUserInfo r
  let tsErrors := conversionTimeErrors useConversionTime resetOldTimestamps now r
  let currencyValidation := validateCurrencyData r
  let errors := emailErrors ++ tsErrors
  let warnings := userInfoValidation.warning.toList ++ currencyValidation.warning.toList
  { valid := errors.isEmpty
    includeUserInfo := userInfoValidation.includeUserInfo
    errors := errors
    warnings := warnings }

/-- Abstract SHA-256 digest: the code computes
`crypto.createHash('sha256').update(email.toLowerCase()).digest('hex')`;
no claim depends on the digest bits, so the digest is modelled by its
exact preimage. -/
structure Digest where
  preimage : String
deriving DecidableEq, Repr

/-- `hashEmail(email)` (linkedin-capi-sender.js lines 580-582). -/
def hashEmail (email : String) : Digest :=
  ⟨jsToLower email⟩

/-- One entry of the `user.userIds` array of a LinkedIn CAPI event. -/
structure UserId where
  idType : String
  idValue : Digest
deriving DecidableEq, Repr

/-- How `constructLinkedInEvent` resolved the event timestamp; mirrors the
`timeSource` variable of the source plus a marker for the defensive
fallback branch (which logs an `Invalid conversionTime` warning while
leaving `timeSource` at `'current'`). -/
inductive TimeSource
  | current
  | csv
  | currentResetOld
  | currentDefensive
deriving DecidableEq, Repr

/-- The timestamp-resolution block of `constructLinkedInEvent`
(linkedin-capi-sender.js lines 586-623): default `Date.now()`; when
`useConversionTime` and the field is truthy, parse it, keep an in-window
value, otherwise fall back to now via the reset branch or the defensive
warning branch. -/
def resolveConversionTime (useConversionTime resetOldTimestamps : Bool)
    (now : Int) (r : Record) : Int × TimeSource :=
  if useConversionTime && r.conversionTime ≠ "" then
    match jsParseInt r.conversionTime with
    | some t =>
        if isValidConversionTime now (some t) then (t, .csv)
        else if resetOldTimestamps then (now, .currentResetOld)
        else (now, .currentDefensive)
    | none =>
        if resetOldTimestamps then (now, .currentResetOld)
        else (now, .currentDefensive)
  else (now, .current)

/-- A LinkedIn CAPI event as built by `constructLinkedInEvent`. The
`amount` of `conversionValue` is kept as the rational the code stringifies
with `Number.prototype.toString`. -/
structure Event where
  conversion : String
  conversionHappenedAt : Int
  userIds : List UserId
  conversionValue : Option (String × ℚ) := none
  userInfo : Option (List (String × String)) := none
deriving DecidableEq, Repr

/-- The run configuration of `LinkedInCAPISender` (instance fields set
before `sendAllRecords`). Interactive input validates
`eventsPerBatch ∈ [1,1000]` and `maxApiCallsPerMinute ∈ [1,120]`. -/
structure Config where
  conversionId : String := ""
  eventsPerBatch : Nat := 100
  maxApiCallsPerMinute : Nat := 60
  useConversionTime : Bool := false
  resetOldTimestamps : Bool := false
deriving DecidableEq, Repr

/-- `constructLinkedInEvent(record, includeUserInfo)` (linkedin-capi-sender.js
lines 585-682). Debug console logging is dropped; the `user.userInfo`
object keeps the non-blank fields in the insertion order of the source. -/
def constructLinkedInEvent (cfg : Config) (now : Int) (r : Record)
    (includeUserInfo : Bool) : Event :=
  let conversionTimestamp := (resolveConversionTime cfg.useConversionTime cfg.resetOldTimestamps now r).1
  let currencyValidation := validateCurrencyData r
  let userInfoFields :=
    [("firstName", r.firstName), ("lastName", r.lastName), ("title", r.title),
     ("companyName", r.companyName), ("countryCode", r.countryCode)]
  let filteredUserInfo := userInfoFields.filter (fun p => nonBlank p.2)
  { conversion := "urn:lla:llaPartnerConversion:" ++ cfg.conversionId
    conversionHappenedAt := conversionTimestamp
    userIds := [{ idType := "SHA256_EMAIL", idValue := hashEmail r.email }]
    conversionValue :=
      if currencyValidation.shouldInclude then
        some (currencyValidation.currencyCode, currencyValidation.conversionValue)
      else none
    userInfo :=
      if includeUserInfo && !filteredUserInfo.isEmpty then some filteredUserInfo
      else none }

/-- The `validRecords` array built inside `constructBatchPayload`: the
records of the batch that pass `validateEventData`, each paired with its
`includeUserInfo` decision. -/
def validatedRecords (useConversionTime resetOldTimestamps : Bool) (now : Int)
    (records : List Record) : List (Record × Bool) :=
  records.filterMap (fun r =>
    let v := validateEventData useConversionTime resetOldTimestamps now r
    if v.valid then some (r, v.includeUserInfo) else none)

/-- Return value of `constructBatchPayload` (linkedin-capi-sender.js lines
685-719): the wire `elements` plus the valid/skipped counts. -/
structure BatchPayload where
  elements : List Event
  validRecords : List (Record × Bool)
  validRecordsCount : Nat
  skippedRecordsCount : Nat
deriving DecidableEq, Repr

/-- `constructBatchPayload(records)` (linkedin-capi-sender.js lines
685-719). The `this.sentRecords + index` passed to `validateEventData`
only feeds console output and is dropped. -/
def constructBatchPayload (cfg : Config) (now : Int) (records : List Record) :
    BatchPayload :=
  let validRecords := validatedRecords cfg.useConversionTime cfg.resetOldTimestamps now records
  { elements := validRecords.map (fun p => constructLinkedInEvent cfg now p.1 p.2)
    validRecords := validRecords
    validRecordsCount := validRecords.length
    skippedRecordsCount := records.length - validRecords.length }

/-- Status attached to a failed event: a numeric HTTP status or the string
`'Network Error'` used when `error.response?.status` is absent. -/
inductive StatusCode
  | code (n : Int)
  | networkError
deriving DecidableEq, Repr

/-- `error.response?.status || 'Network Error'`. -/
def transportStatus (status : Option Int) : StatusCode :=
  match status with
  | some n => .code n
  | none => .networkError

/-- The `error` object of a batch-response element (`{ message, status }`). -/
structure RespError where
  message : String
  status : Int
deriving DecidableEq, Repr

/-- One element of `response.data.elements` in a BATCH_CREATE response:
`status`, an `id` for created events, and an optional `error` object. -/
structure RespElement where
  status : Int
  id : String := ""
  error : Option RespError := none
deriving DecidableEq, Repr

/-- Outcome of one `axios.post` to the conversionEvents endpoint: `ok` when
the promise resolves (2xx) with the parsed `elements` array, `fail` when it
rejects (`status = none` models a network error with no HTTP response). -/
inductive ApiOutcome
  | ok (status : Int) (elements : List RespElement)
  | fail (status : Option Int) (message : String)
deriving DecidableEq, Repr

/-- Batch tag: the numeric `batchIndex` of the first pass or the
`` `retry-${retryBatchIndex}` `` string of the retry pass. -/
inductive BatchTag
  | initial (n : Nat)
  | retry (n : Nat)
deriving DecidableEq, Repr

/-- Whether a tag comes from the retry pass. -/
def BatchTag.isRetry : BatchTag → Bool
  | .initial _ => false
  | .retry _ => true

/-- An entry of `this.failedRecords` (the `location`/`sentAt` metadata of
the source, which feed only file output, are dropped). -/
structure FailedEvent where
  record : Record
  errorMessage : String
  errorStatus : StatusCode
  batchIndex : BatchTag
  eventIndex : Nat
deriving DecidableEq, Repr

/-- An entry of `this.successfulEvents` (again without the file-output-only
metadata). -/
structure SuccessfulEvent where
  record : Record
  batchIndex : BatchTag
  eventIndex : Nat
  responseId : String
deriving DecidableEq, Repr

/-- The mutable run state of `LinkedInCAPISender` that the dispatch loop
reads and writes. `skippedEvents` accumulates the per-batch
`skippedRecordsCount` values the code computes, logs and returns (the code
keeps no aggregate variable for them); `callCount` counts HTTP calls and
indexes the outcome oracle. -/
structure SenderState where
  sentRecords : Nat := 0
  failedRecords : List FailedEvent := []
  successfulEvents : List SuccessfulEvent := []
  skippedEvents : Nat := 0
  callCount : Nat := 0
deriving DecidableEq, Repr

/-- The body of the `elements.forEach((element, index) => ...)` response
loop of `sendBatchToLinkedIn` (linkedin-capi-sender.js lines 784-810) for
one element: `records[index]` is credited as Sent on status 201, otherwise
appended to the failed list with `element.error || { message: 'Unknown
error', status: element.status }`. An out-of-range `records[index]` is JS
`undefined`; it is modelled by `emptyRecord` (no claim exercises it). -/
def applyRespElement (tag : BatchTag) (records : List Record) (i : Nat)
    (e : RespElement) (st : SenderState) : SenderState :=
  let originalRecord := records.getD i emptyRecord
  if e.status = 201 then
    { st with
      sentRecords := st.sentRecords + 1
      successfulEvents := st.successfulEvents ++
        [{ record := originalRecord, batchIndex := tag, eventIndex := i,
           responseId := e.id }] }
  else
    let err := e.error.getD { message := "Unknown error", status := e.status }
    { st with
      failedRecords := st.failedRecords ++
        [{ record := originalRecord, errorMessage := err.message,
           errorStatus := .code err.status, batchIndex := tag, eventIndex := i }] }

/-- The whole response loop, from element index `i`. -/
def processRespElements (tag : BatchTag) (records : List Record) :
    Nat → List RespElement → SenderState → SenderState
  | _, [], st => st
  | i, e :: es, st =>
      processRespElements tag records (i + 1) es (applyRespElement tag records i e st)

/-- `sendBatchToLinkedIn(records, batchIndex)` (linkedin-capi-sender.js
lines 722-895): build the payload, return without an HTTP call when no
record of the batch validated, otherwise make one call; on a resolved
response fold each response element into the state, on a rejected call
append every record of the pre-validation batch to the failed list with
the transport error. Log-file writes, console output and `apiStats` are
dropped; the per-batch skipped count is accumulated in `skippedEvents`. -/
def sendBatchToLinkedIn (cfg : Config) (now : Int) (oracle : Nat → ApiOutcome)
    (records : List Record) (tag : BatchTag) (st : SenderState) : SenderState :=
  let payload := constructBatchPayload cfg now records
  let st := { st with skippedEvents := st.skippedEvents + payload.skippedRecordsCount }
  if payload.elements.isEmpty then st
  else
    let outcome := oracle st.callCount
    let st := { st with callCount := st.callCount + 1 }
    match outcome with
    | .ok _ elements => processRespElements tag records 0 elements st
    | .fail status message =>
        { st with
          failedRecords := st.failedRecords ++
            records.enum.map (fun p =>
              { record := p.2, errorMessage := message,
                errorStatus := transportStatus status, batchIndex := tag,
                eventIndex := p.1 }) }

/-- `(60 * 1000) / apiCallsPerMinute`: the target interval between API
calls of `sendRecordsBatch` (JS float division, modelled in ℚ; the config
prompt guarantees a rate ≥ 1). -/
def targetIntervalMs (cfg : Config) : ℚ :=
  60000 / (cfg.maxApiCallsPerMinute : ℚ)

/-- Fuel-driven chunking: `chunkListAux bs fuel l` splits `l` into
consecutive chunks of `bs` as long as fuel lasts. -/
def chunkListAux (bs : Nat) : Nat → List α → List (List α)
  | _, [] => []
  | 0, l => [l]
  | fuel + 1, x :: xs =>
      (x :: xs.take (bs - 1)) :: chunkListAux bs fuel (xs.drop (bs - 1))

/-- The repeated `recordsToProcess.splice(0, batchSize)` of the dispatch
loops: the input in order, in chunks of `batchSize` (the config prompt
guarantees `batchSize ≥ 1`). -/
def chunkList (bs : Nat) (l : List α) : List (List α) :=
  chunkListAux bs l.length l

/-- Observable step of a `sendRecordsBatch` run: one `sendBatchToLinkedIn`
invocation, or one rate-limiting `await this.sleep(ms)`. -/
inductive RunEvent
  | submit (tag : BatchTag) (batch : List Record)
  | sleep (ms : ℚ)
deriving DecidableEq, Repr

/-- One `while` loop of `sendRecordsBatch` over the chunked record list.
`mkTag` tags batches (`.initial` for the first pass, `.retry` for the
retry pass); `sleepWhenFailed` reproduces the first pass's extra sleep
condition `|| this.failedRecords.length > 0` (the retry loop sleeps only
when more retry records remain). `dur k` is the measured duration of the
`k`-th batch (`Date.now() - batchStartTime`); the loop waits
`max 0 (targetIntervalMs - duration)` and skips the wait when it is not
positive. `this.isRunning` is set once before the loop and never cleared
during a run, so the cancellation test is dropped. Returns the final
state, the event trace and the next batch-duration index. -/
def passLoop (cfg : Config) (now : Int) (oracle : Nat → ApiOutcome)
    (dur : Nat → ℚ) (mkTag : Nat → BatchTag) (sleepWhenFailed : Bool) :
    List (List Record) → Nat → Nat → SenderState →
    SenderState × List RunEvent × Nat
  | [], _, k, st => (st, [], k)
  | b :: bs, i, k, st =>
      let st1 := sendBatchToLinkedIn cfg now oracle b (mkTag i) st
      let sleepEvents :=
        if bs.isEmpty && !(sleepWhenFailed && !st1.failedRecords.isEmpty) then []
        else
          let timeToWait := max 0 (targetIntervalMs cfg - dur k)
          if 0 < timeToWait then [RunEvent.sleep timeToWait] else []
      let rest := passLoop cfg now oracle dur mkTag sleepWhenFailed bs (i + 1) (k + 1) st1
      (rest.1, RunEvent.submit (mkTag i) b :: (sleepEvents ++ rest.2.1), rest.2.2)

/-- `sendRecordsBatch()` (linkedin-capi-sender.js lines 1148-1257): a first
pass over the CSV data in batches, then — when any records failed — one
retry pass over exactly the failed records (`this.failedRecords` is
snapshotted into `recordsToRetry` and cleared), chunked with the same
batch size and paced with the same target interval. Nothing follows the
retry loop. -/
def sendRecordsBatch (cfg : Config) (now : Int) (oracle : Nat → ApiOutcome)
    (dur : Nat → ℚ) (csvData : List Record) : SenderState × List RunEvent :=
  let p1 := passLoop cfg now oracle dur BatchTag.initial true
    (chunkList cfg.eventsPerBatch csvData) 0 0 {}
  let st1 := p1.1
  if st1.failedRecords.length > 0 then
    let recordsToRetry := st1.failedRecords.map (fun f => f.record)
    let p2 := passLoop cfg now oracle dur BatchTag.retry false
      (chunkList cfg.eventsPerBatch recordsToRetry) 0 p1.2.2
      { st1 with failedRecords := [] }
    (p2.1, p1.2.1 ++ p2.2.1)
  else (st1, p1.2.1)

/-- The submitted batches of a trace, in order. -/
def submittedBatches (tr : List RunEvent) : List (List Record) :=
  tr.filterMap (fun e =>
    match e with
    | .submit _ b => some b
    | .sleep _ => none)

/-- The batches submitted by the retry pass of a trace. -/
def retrySubmittedBatches (tr : List RunEvent) : List (List Record) :=
  tr.filterMap (fun e =>
    match e with
    | .submit (.retry _) b => some b
    | _ => none)

/-- Run configuration of the extended `WebhookSender` (part_000, lines
374-1052). The rate prompt validates `maxRequestsPerMinute ∈ [20,25]`. -/
structure WebhookConfig where
  maxRequestsPerMinute : Nat := 20
  useConversionTime : Bool := false
  resetOldTimestamps : Bool := false
deriving DecidableEq, Repr

/-- `(60 * 1000) / this.maxRequestsPerMinute` (part_000 line 957). -/
def delayBetweenRequests (cfg : WebhookConfig) : ℚ :=
  60000 / (cfg.maxRequestsPerMinute : ℚ)

/-- An entry of `this.errors` of the webhook sender:
`{ index, error, status }`. -/
structure WebhookError where
  index : Nat
  error : String
  status : StatusCode
deriving DecidableEq, Repr

/-- Run state of the webhook sender: `sentRecords`, `errors`, and the
local `skippedRecords` counter of its `sendAllRecords`. -/
structure WebhookState where
  sentRecords : Nat := 0
  errors : List WebhookError := []
  skippedRecords : Nat := 0
deriving DecidableEq, Repr

/-- Outcome of one `axios.post` to the webhook URL. -/
inductive WebhookOutcome
  | ok (status : Int)
  | fail (status : Option Int) (message : String)
deriving DecidableEq, Repr

/-- Observable step of a webhook run: one `sendWebhookRequest` (indexed by
the record index) or one `await this.sleep(ms)`. -/
inductive WebhookEvent
  | request (index : Nat)
  | sleep (ms : ℚ)
deriving DecidableEq, Repr

/-- `sendWebhookRequest(payload, recordIndex)` folded into the state
(part_000 lines 884-912): success increments `sentRecords`, failure
appends `{ index, error.message, error.response?.status || 'Network
Error' }` to `errors`. -/
def sendWebhookRequest (outcome : WebhookOutcome) (recordIndex : Nat)
    (st : WebhookState) : WebhookState :=
  match outcome with
  | .ok _ => { st with sentRecords := st.sentRecords + 1 }
  | .fail status message =>
      { st with errors := st.errors ++
          [{ index := recordIndex, error := message,
             status := transportStatus status }] }

/-- The `for (let i = 0; ...)` dispatch loop of the extended webhook
`sendAllRecords` (part_000 lines 961-982), over the enumerated records:
a record failing `validateEventData` increments `skippedRecords` and
`continue`s (skipping the sleep as well); otherwise one request is made
and, when `i < csvData.length - 1`, the fixed inter-request delay is
slept. The oracle is indexed by the record index. `this.isRunning` is
never cleared during a run, so the cancellation test is dropped. -/
def webhookLoop (cfg : WebhookConfig) (now : Int)
    (oracle : Nat → WebhookOutcome) (total : Nat) :
    List (Nat × Record) → WebhookState → WebhookState × List WebhookEvent
  | [], st => (st, [])
  | (i, r) :: rest, st =>
      let validation := validateEventData cfg.useConversionTime cfg.resetOldTimestamps now r
      if !validation.valid then
        webhookLoop cfg now oracle total rest
          { st with skippedRecords := st.skippedRecords + 1 }
      else
        let st1 := sendWebhookRequest (oracle i) i st
        let sleepEvents :=
          if i < total - 1 then [WebhookEvent.sleep (delayBetweenRequests cfg)] else []
        let rest1 := webhookLoop cfg now oracle total rest st1
        (rest1.1, WebhookEvent.request i :: (sleepEvents ++ rest1.2))

/-- The dispatch phase of the extended `WebhookSender.sendAllRecords`
(part_000 lines 934-1013), after the interactive confirmation. -/
def webhookSendAllRecords (cfg : WebhookConfig) (now : Int)
    (oracle : Nat → WebhookOutcome) (csvData : List Record) :
    WebhookState × List WebhookEvent :=
  webhookLoop cfg now oracle csvData.length csvData.enum {}

/-- Closed form of the Sent outcomes produced by the response loop from
element index `i`: one `SuccessfulEvent` per element with status 201,
attributed to `records[index]`. -/
def successesFrom (tag : BatchTag) (records : List Record) :
    Nat → List RespElement → List SuccessfulEvent
  | _, [] => []
  | i, e :: es =>
      (if e.status = 201 then
        [{ record := records.getD i emptyRecord, batchIndex := tag,
           eventIndex := i, responseId := e.id }]
      else []) ++ successesFrom tag records (i + 1) es

/-- Closed form of the Failed outcomes produced by the response loop from
element index `i`: one `FailedEvent` per element with status ≠ 201,
carrying `element.error || { message: 'Unknown error', status }`. -/
def failuresFrom (tag : BatchTag) (records : List Record) :
    Nat → List RespElement → List FailedEvent
  | _, [] => []
  | i, e :: es =>
      (if e.status = 201 then []
      else
        let err := e.error.getD { message := "Unknown error", status := e.status }
        [{ record := records.getD i emptyRecord, errorMessage := err.message,
           errorStatus := .code err.status, batchIndex := tag, eventIndex := i }])
        ++ failuresFrom tag records (i + 1) es

/-- The malformed-pair conditions enumerated by claim C7: exactly one of
the two currency fields present, a currency code failing the
`/^[A-Z]{3}$/` test after trim and uppercase, or a conversion value that
does not parse as a number ≥ 0. -/
def currencyPairMalformed (r : Record) : Bool :=
  let hasCC := nonBlank r.currencyCode
  let hasCV := nonBlank r.conversionValue
  (hasCC != hasCV) ||
    (hasCC && hasCV &&
      (!isThreeUpperAlpha (jsToUpper (jsTrim r.currencyCode)) ||
        (match jsParseFloat r.conversionValue with
         | none => true
         | some v => decide (v < 0))))

/-! Concrete fixtures used by the closed evaluation theorems below. -/

/-- A record with no email: `validateEventData` hard-rejects it. -/
def badRec : Record := {}

/-- A record that passes validation. -/
def goodRec : Record := { email := "john@x.com" }

/-- A second valid record. -/
def goodRec2 : Record := { email := "jane@x.com" }

/-- The spec's currency scenario record: 4-letter code `"EURO"` with
value `"5"`. -/
def euroRec : Record := { email := "a@b.c", currencyCode := "EURO", conversionValue := "5" }

/-- A valid record carrying an in-window conversion time (relative to
`now = 7776000600`). -/
def tsRec : Record := { email := "a@b.c", conversionTime := "7776000500" }

/-- LinkedIn configuration with batch size 2 used by the run evaluations. -/
def cfgBatch2 : Config := { conversionId := "123", eventsPerBatch := 2 }

/-- Configuration using CSV conversion times without the reset option. -/
def cfgTs : Config := { conversionId := "123", useConversionTime := true }

/-- Oracle under which every HTTP call fails at the transport level. -/
def netFailOracle : Nat → ApiOutcome := fun _ => .fail none "socket hang up"

/-- Oracle: the first call fails at the transport level, every later call
resolves with a single created element (one status per submitted unit of
the retry batch, which contains exactly one valid record). -/
def retryOkOracle : Nat → ApiOutcome := fun k =>
  if k = 0 then .fail none "ECONNRESET"
  else .ok 200 [{ status := 201, id := "id1" }]

/-- Oracle: every call resolves with a single created element. -/
def oneCreatedOracle : Nat → ApiOutcome := fun _ =>
  .ok 200 [{ status := 201, id := "idA" }]

/-- The spec's mixed batch response: a 201 for element 0 and a 400 with a
channel error message for element 1. -/
def mixedElements : List RespElement :=
  [{ status := 201, id := "abc" },
   { status := 400, error := some { message := "Invalid conversion", status := 400 } }]

/-- Oracle delivering `mixedElements` on every call. -/
def mixedOracle : Nat → ApiOutcome := fun _ => .ok 200 mixedElements

/-- Zero batch durations for the rate-limiter oracle. -/
def durZero : Nat → ℚ := fun _ => 0

/-- Webhook outcome oracle under which every request succeeds. -/
def webhookOkOracle : Nat → WebhookOutcome := fun _ => .ok 200

/-! ## Theorems -/

/-- Under a realistic clock (any `now` more than 90 days after the epoch),
the `!timestamp` truthiness guard of `isValidConversionTime` is redundant
and the check is exactly inclusive window membership. -/
theorem isValidConversionTime_window (now t : Int) (h : ninetyDaysMs < now) :
    isValidConversionTime now (some t) = decide (now - ninetyDaysMs ≤ t ∧ t ≤ now) := by
  unfold isValidConversionTime
  by_cases h0 : t = 0
  · subst h0
    have hnot : ¬(now - ninetyDaysMs ≤ (0 : Int) ∧ (0 : Int) ≤ now) := by
      intro hc
      obtain ⟨hc1, _⟩ := hc
      omega
    simp only [if_pos rfl]
    exact (decide_eq_false hnot).symm
  · simp [h0, Bool.decide_and]

/-- C2 (corrected): the user-info decision of `validateUserInfo`.
`includeUserInfo` is `true` exactly when some of title/companyName/
countryCode is non-blank AND both firstName and lastName are non-blank;
a warning is produced exactly when the trigger fields are present but a
name is missing. In particular — against the claim as stated — a record
whose userInfo fields are all empty gets `includeUserInfo = false`
(without a warning), not `true`; and `includeUserInfo = true` still
implies both names are non-empty. -/
theorem c2_userinfo_decision_amended (r : Record) :
    (validateUserInfo r).includeUserInfo
      = (hasUserInfoTrigger r && (nonBlank r.firstName && nonBlank r.lastName))
    ∧ (validateUserInfo r).warning.isSome
      = (hasUserInfoTrigger r && !(nonBlank r.firstName && nonBlank r.lastName)) := by
  unfold validateUserInfo
  cases ht : hasUserInfoTrigger r <;>
    cases hf : nonBlank r.firstName <;>
      cases hl : nonBlank r.lastName <;>
        simp [ht, hf, hl]

/-- C2 counterexample: the all-empty record has every userInfo field
absent/empty, yet `validateUserInfo` returns `includeUserInfo = false`
where the claim requires `true`. -/
theorem c2_userinfo_counterexample :
    emptyRecord.firstName = "" ∧ emptyRecord.lastName = ""
    ∧ emptyRecord.title = "" ∧ emptyRecord.companyName = ""
    ∧ emptyRecord.countryCode = ""
    ∧ (validateUserInfo emptyRecord).includeUserInfo = false := by
  decide

/-- C6 (corrected): the recency check accepts `t` iff `t` is nonzero and
lies in the inclusive window `[now - 90d, now]`. The nonzero condition is
the JS truthiness guard `!timestamp`; for every realistic `now` it is
redundant (see `isValidConversionTime_window`), but the claim as stated
quantifies over all reference times and fails at `t = 0`. -/
theorem c6_recency_window_amended (now t : Int) :
    isValidConversionTime now (some t)
      = (!decide (t = 0) && (decide (now - ninetyDaysMs ≤ t) && decide (t ≤ now))) := by
  unfold isValidConversionTime
  by_cases h0 : t = 0 <;> simp [h0]

/-- C6 counterexample: at reference time `now = 1000` the timestamp `0`
lies inside the inclusive 90-day window, yet the check rejects it
(JS `!timestamp` is true for `0`). -/
theorem c6_recency_window_counterexample :
    isValidConversionTime 1000 (some 0) = false
    ∧ ((1000 : Int) - ninetyDaysMs ≤ 0 ∧ (0 : Int) ≤ 1000) := by
  constructor
  · decide
  · constructor
    · decide
    · decide

/-- C4 (confirmed, for any clock value at least 90 days past the epoch —
true of every real `Date.now()`): the nested payload's
`conversionHappenedAt` is the resolved timestamp, and the resolution
follows the shared policy: disabled flag or empty/non-numeric field →
now; in-window parsed value → that value; out-of-window with
`resetOldTimestamps` → now (reset branch); otherwise → now through the
defensive warning branch (`TimeSource.currentDefensive`). -/
theorem c4_timestamp_resolution (cfg : Config) (now : Int) (r : Record)
    (includeUserInfo : Bool) (h : ninetyDaysMs < now) :
    (constructLinkedInEvent cfg now r includeUserInfo).conversionHappenedAt
      = (resolveConversionTime cfg.useConversionTime cfg.resetOldTimestamps now r).1
    ∧ resolveConversionTime cfg.useConversionTime cfg.resetOldTimestamps now r
      = (if cfg.useConversionTime ∧ r.conversionTime ≠ "" then
          match jsParseInt r.conversionTime with
          | some t =>
              if now - ninetyDaysMs ≤ t ∧ t ≤ now then (t, TimeSource.csv)
              else if cfg.resetOldTimestamps then (now, TimeSource.currentResetOld)
              else (now, TimeSource.currentDefensive)
          | none =>
              if cfg.resetOldTimestamps then (now, TimeSource.currentResetOld)
              else (now, TimeSource.currentDefensive)
        else (now, TimeSource.current)) := by
  refine ⟨rfl, ?_⟩
  unfold resolveConversionTime
  cases hu : cfg.useConversionTime with
  | false => simp [hu]
  | true =>
      by_cases hct : r.conversionTime = ""
      · simp [hu, hct]
      · simp only [hu, hct, ne_eq, not_false_eq_true, decide_eq_true_eq,
          Bool.true_and, if_true, true_and, iff_true]
        cases hp : jsParseInt r.conversionTime with
        | none => simp [hp]
        | some t =>
            simp only [hp]
            rw [isValidConversionTime_window now t h]
            by_cases hw : now - ninetyDaysMs ≤ t ∧ t ≤ now
            · simp only [hw, decide_eq_true_eq, if_pos hw, if_true]
            · simp only [decide_eq_true_eq, if_neg hw]

/-- C4 witness: a record with an in-window CSV timestamp resolves to that
timestamp with source `csv`. -/
theorem c4_timestamp_resolution_witness :
    ninetyDaysMs < (7776000600 : Int)
    ∧ ((constructLinkedInEvent cfgTs 7776000600 tsRec true).conversionHappenedAt
        = (resolveConversionTime cfgTs.useConversionTime cfgTs.resetOldTimestamps 7776000600 tsRec).1
      ∧ resolveConversionTime cfgTs.useConversionTime cfgTs.resetOldTimestamps 7776000600 tsRec
        = (if cfgTs.useConversionTime ∧ tsRec.conversionTime ≠ "" then
            match jsParseInt tsRec.conversionTime with
            | some t =>
                if (7776000600 : Int) - ninetyDaysMs ≤ t ∧ t ≤ (7776000600 : Int) then (t, TimeSource.csv)
                else if cfgTs.resetOldTimestamps then ((7776000600 : Int), TimeSource.currentResetOld)
                else ((7776000600 : Int), TimeSource.currentDefensive)
            | none =>
                if cfgTs.resetOldTimestamps then ((7776000600 : Int), TimeSource.currentResetOld)
                else ((7776000600 : Int), TimeSource.currentDefensive)
          else ((7776000600 : Int), TimeSource.current))) :=
  ⟨by decide, c4_timestamp_resolution cfgTs 7776000600 tsRec true (by decide)⟩

/-- C7 (confirmed): an incomplete or malformed currency pair yields
`shouldInclude = false` together with a warning; record validity is
unchanged by the currency fields (so the record is still dispatched); and
the nested payload then carries no `conversionValue` block. -/
theorem c7_currency_warning_only (u o : Bool) (now : Int) (cfg : Config)
    (r : Record) (includeUserInfo : Bool) (cc cv : String)
    (h : currencyPairMalformed r = true) :
    (validateCurrencyData r).shouldInclude = false
    ∧ (validateCurrencyData r).warning.isSome = true
    ∧ (validateEventData u o now { r with currencyCode := cc, conversionValue := cv }).valid
        = (validateEventData u o now r).valid
    ∧ (constructLinkedInEvent cfg now r includeUserInfo).conversionValue = none := by
  have hmain : (validateCurrencyData r).shouldInclude = false
      ∧ (validateCurrencyData r).warning.isSome = true := by
    unfold currencyPairMalformed at h
    unfold validateCurrencyData
    by_cases h1 : nonBlank r.currencyCode <;> by_cases h2 : nonBlank r.conversionValue <;>
      simp [h1, h2] at h ⊢
    by_cases hp : isThreeUpperAlpha (jsToUpper (jsTrim r.currencyCode))
    · simp [hp] at h ⊢
      cases hv : jsParseFloat r.conversionValue with
      | none => simp
      | some v =>
          rw [hv] at h
          simp at h
          simp [h]
    · simp [hp]
  refine ⟨hmain.1, hmain.2, ?_, ?_⟩
  · simp [validateEventData, conversionTimeErrors]
  · simp [constructLinkedInEvent, hmain.1]

/-- C7 witness: the spec scenario `currencyCode="EURO"`,
`conversionValue="5"` — excluded with a warning, validity untouched, no
currency block in the payload. -/
theorem c7_currency_warning_only_witness :
    currencyPairMalformed euroRec = true
    ∧ ((validateCurrencyData euroRec).shouldInclude = false
      ∧ (validateCurrencyData euroRec).warning.isSome = true
      ∧ (validateEventData false false 0 { euroRec with currencyCode := "x", conversionValue := "y" }).valid
          = (validateEventData false false 0 euroRec).valid
      ∧ (constructLinkedInEvent cfgBatch2 0 euroRec true).conversionValue = none) :=
  ⟨by decide, c7_currency_warning_only false false 0 cfgBatch2 euroRec true "x" "y" (by decide)⟩

/-- Closed form of the batch-response loop: starting at element index `i`,
the Sent count grows by the number of 201 elements, and the success and
failed lists are extended by `successesFrom` / `failuresFrom`. -/
theorem processRespElements_spec (tag : BatchTag) (records : List Record) :
    ∀ (es : List RespElement) (i : Nat) (st : SenderState),
      processRespElements tag records i es st =
        { st with
          sentRecords := st.sentRecords + es.countP (fun e => e.status == 201)
          successfulEvents := st.successfulEvents ++ successesFrom tag records i es
          failedRecords := st.failedRecords ++ failuresFrom tag records i es } := by
  intro es
  induction es with
  | nil =>
      intro i st
      simp [processRespElements, successesFrom, failuresFrom]
  | cons e es ih =>
      intro i st
      rw [processRespElements, ih]
      unfold applyRespElement
      by_cases hs : e.status = 201
      · simp [hs, successesFrom, failuresFrom, List.countP_cons]
        omega
      · simp [hs, successesFrom, failuresFrom, List.countP_cons]

/-- C3 (confirmed): when the HTTP call of a batch resolves and carries
per-element statuses, one call (`callCount + 1`) produces both kinds of
outcome: each element with status 201 is counted as Sent (`sentRecords`
grows by the number of 201 elements, and the success list records the
element's `id` as `responseId`), and every other element is appended to
the failed list with the channel-reported error message
(`element.error`, defaulted to `Unknown error`). The code's success
criterion is exactly status 201 (the BATCH_CREATE created status). -/
theorem c3_batch_response_outcomes (cfg : Config) (now : Int)
    (oracle : Nat → ApiOutcome) (records : List Record) (st : SenderState)
    (tag : BatchTag) (status : Int) (elements : List RespElement)
    (h1 : (constructBatchPayload cfg now records).elements ≠ [])
    (h2 : oracle st.callCount = ApiOutcome.ok status elements) :
    (sendBatchToLinkedIn cfg now oracle records tag st).sentRecords
      = st.sentRecords + elements.countP (fun e => e.status == 201)
    ∧ (sendBatchToLinkedIn cfg now oracle records tag st).successfulEvents
      = st.successfulEvents ++ successesFrom tag records 0 elements
    ∧ (sendBatchToLinkedIn cfg now oracle records tag st).failedRecords
      = st.failedRecords ++ failuresFrom tag records 0 elements
    ∧ (sendBatchToLinkedIn cfg now oracle records tag st).callCount
      = st.callCount + 1 := by
  unfold sendBatchToLinkedIn
  rw [if_neg (by simpa [List.isEmpty_iff] using h1)]
  simp only [h2]
  rw [processRespElements_spec]
  simp

/-- C3 witness: the spec scenario — one call returning a 201 for element 0
and a 400 with message `Invalid conversion` for element 1 yields one Sent
and one Failed outcome from that single call. -/
theorem c3_batch_response_outcomes_witness :
    (constructBatchPayload cfgBatch2 0 [goodRec, goodRec2]).elements ≠ []
    ∧ mixedOracle (({} : SenderState)).callCount = ApiOutcome.ok 200 mixedElements
    ∧ ((sendBatchToLinkedIn cfgBatch2 0 mixedOracle [goodRec, goodRec2] (.initial 0) {}).sentRecords
        = ({} : SenderState).sentRecords + mixedElements.countP (fun e => e.status == 201)
      ∧ (sendBatchToLinkedIn cfgBatch2 0 mixedOracle [goodRec, goodRec2] (.initial 0) {}).successfulEvents
        = ({} : SenderState).successfulEvents ++ successesFrom (.initial 0) [goodRec, goodRec2] 0 mixedElements
      ∧ (sendBatchToLinkedIn cfgBatch2 0 mixedOracle [goodRec, goodRec2] (.initial 0) {}).failedRecords
        = ({} : SenderState).failedRecords ++ failuresFrom (.initial 0) [goodRec, goodRec2] 0 mixedElements
      ∧ (sendBatchToLinkedIn cfgBatch2 0 mixedOracle [goodRec, goodRec2] (.initial 0) {}).callCount
        = ({} : SenderState).callCount + 1) :=
  ⟨by decide, rfl,
    c3_batch_response_outcomes cfgBatch2 0 mixedOracle [goodRec, goodRec2] {}
      (.initial 0) 200 mixedElements (by decide) rfl⟩

/-- Flattening the chunks reproduces the input list (for any fuel). -/
theorem chunkListAux_flatten (bs : Nat) :
    ∀ (fuel : Nat) (l : List α), (chunkListAux bs fuel l).flatten = l := by
  intro fuel
  induction fuel with
  | zero =>
      intro l
      cases l <;> simp [chunkListAux]
  | succ n ih =>
      intro l
      cases l with
      | nil => simp [chunkListAux]
      | cons x xs =>
          simp [chunkListAux, ih, List.take_append_drop]

/-- `splice`-chunking loses and duplicates nothing: the concatenation of
the chunks is the original list. -/
theorem chunkList_flatten (bs : Nat) (l : List α) :
    (chunkList bs l).flatten = l :=
  chunkListAux_flatten bs l.length l

/-- `submittedBatches` distributes over trace concatenation. -/
theorem submittedBatches_append (a b : List RunEvent) :
    submittedBatches (a ++ b) = submittedBatches a ++ submittedBatches b :=
  List.filterMap_append a b _

/-- `retrySubmittedBatches` distributes over trace concatenation. -/
theorem retrySubmittedBatches_append (a b : List RunEvent) :
    retrySubmittedBatches (a ++ b)
      = retrySubmittedBatches a ++ retrySubmittedBatches b :=
  List.filterMap_append a b _

/-- The submit events of one pass are exactly its chunk list, in order. -/
theorem submittedBatches_passLoop (cfg : Config) (now : Int)
    (oracle : Nat → ApiOutcome) (dur : Nat → ℚ) (mkTag : Nat → BatchTag)
    (sleepWhenFailed : Bool) :
    ∀ (chunks : List (List Record)) (i k : Nat) (st : SenderState),
      submittedBatches
          (passLoop cfg now oracle dur mkTag sleepWhenFailed chunks i k st).2.1
        = chunks := by
  intro chunks
  induction chunks with
  | nil =>
      intro i k st
      simp [passLoop, submittedBatches]
  | cons b bs ih =>
      intro i k st
      rw [passLoop]
      simp only [submittedBatches, List.filterMap_cons, List.filterMap_append]
      rw [← submittedBatches, ← submittedBatches, ih]
      split <;> simp [submittedBatches]

/-- A pass tagged by `mkTag` contributes `some` batch to
`retrySubmittedBatches` exactly for its `.retry` tags; stated for the two
taggers used by `sendRecordsBatch`. -/
theorem retrySubmittedBatches_passLoop_initial (cfg : Config) (now : Int)
    (oracle : Nat → ApiOutcome) (dur : Nat → ℚ) (sleepWhenFailed : Bool) :
    ∀ (chunks : List (List Record)) (i k : Nat) (st : SenderState),
      retrySubmittedBatches
          (passLoop cfg now oracle dur BatchTag.initial sleepWhenFailed chunks i k st).2.1
        = [] := by
  intro chunks
  induction chunks with
  | nil =>
      intro i k st
      simp [passLoop, retrySubmittedBatches]
  | cons b bs ih =>
      intro i k st
      rw [passLoop]
      simp only [retrySubmittedBatches, List.filterMap_cons, List.filterMap_append]
      rw [← retrySubmittedBatches, ← retrySubmittedBatches, ih]
      split <;> simp [retrySubmittedBatches]

/-- The retry pass submits exactly its chunk list. -/
theorem retrySubmittedBatches_passLoop_retry (cfg : Config) (now : Int)
    (oracle : Nat → ApiOutcome) (dur : Nat → ℚ) (sleepWhenFailed : Bool) :
    ∀ (chunks : List (List Record)) (i k : Nat) (st : SenderState),
      retrySubmittedBatches
          (passLoop cfg now oracle dur BatchTag.retry sleepWhenFailed chunks i k st).2.1
        = chunks := by
  intro chunks
  induction chunks with
  | nil =>
      intro i k st
      simp [passLoop, retrySubmittedBatches]
  | cons b bs ih =>
      intro i k st
      rw [passLoop]
      simp only [retrySubmittedBatches, List.filterMap_cons, List.filterMap_append]
      rw [← retrySubmittedBatches, ← retrySubmittedBatches, ih]
      split <;> simp [retrySubmittedBatches]

/-- Every failed entry of `failuresFrom` carries the batch's tag. -/
theorem failuresFrom_batchIndex (tag : BatchTag) (records : List Record) :
    ∀ (es : List RespElement) (i : Nat) (f : FailedEvent),
      f ∈ failuresFrom tag records i es → f.batchIndex = tag := by
  intro es
  induction es with
  | nil =>
      intro i f hf
      simp [failuresFrom] at hf
  | cons e es ih =>
      intro i f hf
      unfold failuresFrom at hf
      rcases List.mem_append.mp hf with hl | hr
      · by_cases hs : e.status = 201
        · simp [hs] at hl
        · simp [hs] at hl
          subst hl
          rfl
      · exact ih (i + 1) f hr

/-- Every failed entry present after `sendBatchToLinkedIn` was either
already in the state or carries the submitted batch's tag. -/
theorem sendBatchToLinkedIn_failed_tag (cfg : Config) (now : Int)
    (oracle : Nat → ApiOutcome) (records : List Record) (tag : BatchTag)
    (st : SenderState) (f : FailedEvent)
    (hf : f ∈ (sendBatchToLinkedIn cfg now oracle records tag st).failedRecords) :
    f ∈ st.failedRecords ∨ f.batchIndex = tag := by
  unfold sendBatchToLinkedIn at hf
  by_cases he : (constructBatchPayload cfg now records).elements.isEmpty
  · rw [if_pos he] at hf
    exact Or.inl hf
  · rw [if_neg he] at hf
    cases ho2 : oracle st.callCount with
    | ok s es =>
        simp only [ho2] at hf
        rw [processRespElements_spec] at hf
        simp only [List.mem_append] at hf
        rcases hf with hl | hr
        · exact Or.inl hl
        · exact Or.inr (failuresFrom_batchIndex tag records es 0 f hr)
    | fail s msg =>
        simp only [ho2] at hf
        simp only [List.mem_append] at hf
        rcases hf with hl | hr
        · exact Or.inl hl
        · rcases List.mem_map.mp hr with ⟨p, _, hp⟩
          rw [← hp]
          exact Or.inr rfl

/-- Failed-tag invariant of a whole pass: if every failed entry of the
starting state satisfies `p` on its tag and `p` holds of every tag the
pass assigns, then every failed entry of the final state satisfies `p`. -/
theorem passLoop_failed_tag (cfg : Config) (now : Int)
    (oracle : Nat → ApiOutcome) (dur : Nat → ℚ) (mkTag : Nat → BatchTag)
    (sleepWhenFailed : Bool) (p : BatchTag → Bool)
    (hmk : ∀ i, p (mkTag i) = true) :
    ∀ (chunks : List (List Record)) (i k : Nat) (st : SenderState),
      (∀ f ∈ st.failedRecords, p f.batchIndex = true) →
      ∀ f ∈ (passLoop cfg now oracle dur mkTag sleepWhenFailed chunks i k st).1.failedRecords,
        p f.batchIndex = true := by
  intro chunks
  induction chunks with
  | nil =>
      intro i k st hst f hf
      rw [passLoop] at hf
      exact hst f hf
  | cons b bs ih =>
      intro i k st hst f hf
      rw [passLoop] at hf
      refine ih (i + 1) (k + 1) _ ?_ f hf
      intro g hg
      rcases sendBatchToLinkedIn_failed_tag cfg now oracle b (mkTag i) st g hg with hl | hr
      · exact hst g hl
      · rw [hr]
        exact hmk i

/-- C5 (confirmed): a `sendRecordsBatch` run submits exactly the chunking
of the input followed by the chunking — with the same batch size — of the
records that were in the failed list after the first pass; flattening
shows each first-pass failed unit is re-submitted exactly once, and the
trace contains nothing after the retry pass, so no unit is submitted a
third time. Every entry of the final failed list carries a `.retry` tag:
units failing during the retry pass remain Failed, terminally. -/
theorem c5_single_retry_pass (cfg : Config) (now : Int)
    (oracle : Nat → ApiOutcome) (dur : Nat → ℚ) (csvData : List Record) :
    submittedBatches (sendRecordsBatch cfg now oracle dur csvData).2
      = chunkList cfg.eventsPerBatch csvData
        ++ chunkList cfg.eventsPerBatch
            ((passLoop cfg now oracle dur BatchTag.initial true
                (chunkList cfg.eventsPerBatch csvData) 0 0 {}).1.failedRecords.map
              (fun f => f.record))
    ∧ (chunkList cfg.eventsPerBatch
          ((passLoop cfg now oracle dur BatchTag.initial true
              (chunkList cfg.eventsPerBatch csvData) 0 0 {}).1.failedRecords.map
            (fun f => f.record))).flatten
        = (passLoop cfg now oracle dur BatchTag.initial true
            (chunkList cfg.eventsPerBatch csvData) 0 0 {}).1.failedRecords.map
          (fun f => f.record)
    ∧ (sendRecordsBatch cfg now oracle dur csvData).1.failedRecords.all
        (fun f => f.batchIndex.isRetry) = true := by
  refine ⟨?_, chunkList_flatten _ _, ?_⟩
  · unfold sendRecordsBatch
    by_cases hf :
        (passLoop cfg now oracle dur BatchTag.initial true
          (chunkList cfg.eventsPerBatch csvData) 0 0 {}).1.failedRecords.length > 0
    · rw [if_pos hf, submittedBatches_append, submittedBatches_passLoop,
        submittedBatches_passLoop]
    · rw [if_neg hf]
      have hnil :
          (passLoop cfg now oracle dur BatchTag.initial true
            (chunkList cfg.eventsPerBatch csvData) 0 0 {}).1.failedRecords = [] := by
        simp only [gt_iff_lt, Nat.pos_iff_ne_zero, ne_eq, not_not] at hf
        exact List.length_eq_zero.mp hf
      rw [hnil]
      simp [submittedBatches_passLoop, chunkList, chunkListAux]
  · unfold sendRecordsBatch
    by_cases hf :
        (passLoop cfg now oracle dur BatchTag.initial true
          (chunkList cfg.eventsPerBatch csvData) 0 0 {}).1.failedRecords.length > 0
    · rw [if_pos hf]
      rw [List.all_eq_true]
      intro f hf2
      refine passLoop_failed_tag cfg now oracle dur BatchTag.retry false
        (fun t => t.isRetry) (fun _ => rfl) _ 0
        (passLoop cfg now oracle dur BatchTag.initial true
          (chunkList cfg.eventsPerBatch csvData) 0 0 {}).2.2 _ ?_ f hf2
      intro g hg
      simp at hg
    · rw [if_neg hf]
      have hnil :
          (passLoop cfg now oracle dur BatchTag.initial true
            (chunkList cfg.eventsPerBatch csvData) 0 0 {}).1.failedRecords = [] := by
        simp only [gt_iff_lt, Nat.pos_iff_ne_zero, ne_eq, not_not] at hf
        exact List.length_eq_zero.mp hf
      rw [List.all_eq_true]
      intro f hf2
      rw [hnil] at hf2
      simp at hf2

/-- C9 (corrected): when a batched call fails at the transport level,
every record of the submitted pre-validation batch — including records
that validation rejected and that were therefore excluded from the
payload — is appended to the failed-records list with that error (first
conjunct), and the retry pass then re-submits exactly the records of the
failed list (second conjunct), so validation-skipped records of such a
batch are retried. The claim's final clause — that such records are
"ultimately counted as Failed rather than Skipped" — is dropped: it does
not hold of the code. The retry pass re-validates and excludes them from
the retry payload, so their final outcome is determined by the retry
call's result together with the `records[index]` misattribution, and they
need not end in the terminal failed list at all: in the counterexample
the retry call resolves with a 201 element and the validation-skipped
record ends counted as Sent, with an empty failed list. -/
theorem c9_transport_failure_amended :
    (∀ (cfg : Config) (now : Int) (oracle : Nat → ApiOutcome)
        (records : List Record) (st : SenderState) (tag : BatchTag)
        (status : Option Int) (message : String),
      (constructBatchPayload cfg now records).elements ≠ [] →
      oracle st.callCount = ApiOutcome.fail status message →
      (sendBatchToLinkedIn cfg now oracle records tag st).failedRecords
          = st.failedRecords ++
            records.enum.map (fun p =>
              { record := p.2, errorMessage := message,
                errorStatus := transportStatus status, batchIndex := tag,
                eventIndex := p.1 })
        ∧ (sendBatchToLinkedIn cfg now oracle records tag st).sentRecords
            = st.sentRecords
        ∧ (sendBatchToLinkedIn cfg now oracle records tag st).callCount
            = st.callCount + 1)
    ∧ (∀ (cfg : Config) (now : Int) (oracle : Nat → ApiOutcome) (dur : Nat → ℚ)
        (csvData : List Record),
      (retrySubmittedBatches (sendRecordsBatch cfg now oracle dur csvData).2).flatten
        = (passLoop cfg now oracle dur BatchTag.initial true
            (chunkList cfg.eventsPerBatch csvData) 0 0 {}).1.failedRecords.map
          (fun f => f.record)) := by
  constructor
  · intro cfg now oracle records st tag status message h1 h2
    unfold sendBatchToLinkedIn
    rw [if_neg (by simpa [List.isEmpty_iff] using h1)]
    simp only [h2]
    simp
  · intro cfg now oracle dur csvData
    unfold sendRecordsBatch
    by_cases hf :
        (passLoop cfg now oracle dur BatchTag.initial true
          (chunkList cfg.eventsPerBatch csvData) 0 0 {}).1.failedRecords.length > 0
    · rw [if_pos hf, retrySubmittedBatches_append,
        retrySubmittedBatches_passLoop_initial, retrySubmittedBatches_passLoop_retry]
      simp [chunkList_flatten]
    · rw [if_neg hf, retrySubmittedBatches_passLoop_initial]
      have hnil :
          (passLoop cfg now oracle dur BatchTag.initial true
            (chunkList cfg.eventsPerBatch csvData) 0 0 {}).1.failedRecords = [] := by
        simp only [gt_iff_lt, Nat.pos_iff_ne_zero, ne_eq, not_not] at hf
        exact List.length_eq_zero.mp hf
      rw [hnil]
      simp

/-- C9 witness: a transport failure on the batch `[badRec, goodRec]`
(whose first record is validation-rejected and absent from the payload)
appends both records to the failed list with the network error. -/
theorem c9_transport_failure_amended_witness :
    (constructBatchPayload cfgBatch2 0 [badRec, goodRec]).elements ≠ []
    ∧ netFailOracle (({} : SenderState)).callCount = ApiOutcome.fail none "socket hang up"
    ∧ ((sendBatchToLinkedIn cfgBatch2 0 netFailOracle [badRec, goodRec] (.initial 0) {}).failedRecords
        = ({} : SenderState).failedRecords ++
          [badRec, goodRec].enum.map (fun p =>
            { record := p.2, errorMessage := "socket hang up",
              errorStatus := transportStatus none, batchIndex := BatchTag.initial 0,
              eventIndex := p.1 })
      ∧ (sendBatchToLinkedIn cfgBatch2 0 netFailOracle [badRec, goodRec] (.initial 0) {}).sentRecords
        = ({} : SenderState).sentRecords
      ∧ (sendBatchToLinkedIn cfgBatch2 0 netFailOracle [badRec, goodRec] (.initial 0) {}).callCount
        = ({} : SenderState).callCount + 1) :=
  ⟨by decide, rfl,
    c9_transport_failure_amended.1 cfgBatch2 0 netFailOracle [badRec, goodRec] {}
      (.initial 0) none "socket hang up" (by decide) rfl⟩

/-- C9 counterexample (to the claim's final clause): run `[badRec,
goodRec]` with batch size 2, the first call a transport failure and the
retry call a success with one created element. The validation-rejected
`badRec` is indeed appended to the failed list by the transport failure
and re-submitted, but at run end the failed list is empty — it is NOT
ultimately counted as Failed; by index misattribution it is even recorded
as Sent. -/
theorem c9_transport_failure_counterexample :
    (validateEventData false false 0 badRec).valid = false
    ∧ (passLoop cfgBatch2 0 retryOkOracle durZero BatchTag.initial true
        (chunkList cfgBatch2.eventsPerBatch [badRec, goodRec]) 0 0 {}).1.failedRecords.map
        (fun f => f.record) = [badRec, goodRec]
    ∧ (sendRecordsBatch cfgBatch2 0 retryOkOracle durZero [badRec, goodRec]).1.failedRecords = []
    ∧ (sendRecordsBatch cfgBatch2 0 retryOkOracle durZero [badRec, goodRec]).1.successfulEvents.map
        (fun s => s.record) = [badRec] := by
  decide

/-- The head of a non-empty filtered list satisfies the filter. -/
theorem filter_getD_zero (p : α → Bool) (d : α) (l : List α)
    (h : l.filter p ≠ []) : p ((l.filter p).getD 0 d) = true := by
  cases hf : l.filter p with
  | nil => exact absurd hf h
  | cons b bs =>
      rw [List.getD_cons_zero]
      have hb : b ∈ l.filter p := by
        rw [hf]
        exact List.mem_cons_self b bs
      exact (List.mem_filter.mp hb).2

/-- Positionwise agreement between a list and its filtered sublist on the
indices of the sublist holds exactly when every record at those indices
passes the filter (the first excluded element, if it sits below the
filtered length, shifts every later position). -/
theorem getD_filter_prefix_iff (p : α → Bool) (d : α) :
    ∀ l : List α,
      ((∀ i, i < (l.filter p).length → l.getD i d = (l.filter p).getD i d)
        ↔ (∀ i, i < (l.filter p).length → p (l.getD i d) = true)) := by
  intro l
  induction l with
  | nil => simp
  | cons a t ih =>
      cases hp : p a with
      | true =>
          rw [List.filter_cons_of_pos hp]
          constructor
          · intro hL i hi
            cases i with
            | zero =>
                rw [List.getD_cons_zero]
                exact hp
            | succ j =>
                have hj : j < (t.filter p).length := by
                  simpa using hi
                have hprefix : ∀ m, m < (t.filter p).length → t.getD m d = (t.filter p).getD m d := by
                  intro m hm
                  have := hL (m + 1) (by simpa using hm)
                  simpa using this
                have := (ih.mp hprefix) j hj
                simpa using this
          · intro hR i hi
            cases i with
            | zero => simp
            | succ j =>
                have hj : j < (t.filter p).length := by
                  simpa using hi
                have hval : ∀ m, m < (t.filter p).length → p (t.getD m d) = true := by
                  intro m hm
                  have := hR (m + 1) (by simpa using hm)
                  simpa using this
                have := (ih.mpr hval) j hj
                simpa using this
      | false =>
          rw [List.filter_cons_of_neg (by simp [hp])]
          by_cases hL0 : (t.filter p).length = 0
          · rw [hL0]
            simp
          · have hpos : 0 < (t.filter p).length := Nat.pos_of_ne_zero hL0
            have hne : t.filter p ≠ [] := by
              intro hc
              rw [hc] at hpos
              simp at hpos
            apply iff_of_false
            · intro hL
              have h0 := hL 0 hpos
              rw [List.getD_cons_zero] at h0
              have hph := filter_getD_zero p d t hne
              rw [← h0, hp] at hph
              exact Bool.false_ne_true hph
            · intro hR
              have h0 := hR 0 hpos
              rw [List.getD_cons_zero, hp] at h0
              exact Bool.false_ne_true h0

/-- The records of `validRecords` are exactly the validity filter of the
batch, in order. -/
theorem validatedRecords_map_fst (u o : Bool) (now : Int) :
    ∀ l : List Record,
      (validatedRecords u o now l).map Prod.fst
        = l.filter (fun r => (validateEventData u o now r).valid) := by
  intro l
  induction l with
  | nil => simp [validatedRecords]
  | cons a t ih =>
      unfold validatedRecords at ih ⊢
      rw [List.filterMap_cons, List.filter_cons]
      cases hv : (validateEventData u o now a).valid <;> simp [hv, ih]

/-- C10 (corrected): payload element `i` is built from the `i`-th VALID
record (first conjunct: the payload's source records are the validity
filter of the pre-validation batch), while the response loop attributes
element `i` to `records[i]` (see `applyRespElement`). The attribution
matches the source of every submitted element iff every record at an index
below the valid count passes validation (second conjunct) — not, as the
claim states, only when NO record of the batch was excluded: a batch whose
excluded records all sit after the valid prefix matches everywhere (see
the counterexample). Third conjunct: whenever a validation-rejected record
sits at an index below the valid count, the outcome of that element is
attributed to a record that differs from the element's source and was
never submitted. -/
theorem c10_attribution_amended :
    (∀ (cfg : Config) (now : Int) (records : List Record),
      (constructBatchPayload cfg now records).validRecords.map Prod.fst
        = records.filter
            (fun r => (validateEventData cfg.useConversionTime cfg.resetOldTimestamps now r).valid))
    ∧ (∀ (u o : Bool) (now : Int) (records : List Record) (d : Record),
        ((∀ i, i < (records.filter (fun r => (validateEventData u o now r).valid)).length →
            records.getD i d
              = (records.filter (fun r => (validateEventData u o now r).valid)).getD i d)
          ↔ (∀ i, i < (records.filter (fun r => (validateEventData u o now r).valid)).length →
              (validateEventData u o now (records.getD i d)).valid = true)))
    ∧ (∀ (u o : Bool) (now : Int) (records : List Record) (d : Record) (i : Nat),
        i < (records.filter (fun r => (validateEventData u o now r).valid)).length →
        (validateEventData u o now (records.getD i d)).valid = false →
        records.getD i d
            ≠ (records.filter (fun r => (validateEventData u o now r).valid)).getD i d
          ∧ records.getD i d
              ∉ records.filter (fun r => (validateEventData u o now r).valid)) := by
  refine ⟨?_, ?_, ?_⟩
  · intro cfg now records
    exact validatedRecords_map_fst cfg.useConversionTime cfg.resetOldTimestamps now records
  · intro u o now records d
    exact getD_filter_prefix_iff (fun r => (validateEventData u o now r).valid) d records
  · intro u o now records d i hi hinv
    constructor
    · intro heq
      have hmem :
          (records.filter (fun r => (validateEventData u o now r).valid)).getD i d
            ∈ records.filter (fun r => (validateEventData u o now r).valid) := by
        rw [List.getD_eq_getElem _ _ hi]
        exact List.getElem_mem hi
      have hval := (List.mem_filter.mp hmem).2
      rw [← heq, hinv] at hval
      exact Bool.false_ne_true hval
    · intro hmem
      have hval := (List.mem_filter.mp hmem).2
      rw [hinv] at hval
      exact Bool.false_ne_true hval

/-- C10 witness: in the batch `[badRec, goodRec]` the rejected record sits
at index 0, below the valid count 1, so the outcome of element 0 is
attributed to `badRec` — a record different from the element's source and
never submitted. -/
theorem c10_attribution_amended_witness :
    0 < ([badRec, goodRec].filter (fun r => (validateEventData false false 0 r).valid)).length
    ∧ (validateEventData false false 0 ([badRec, goodRec].getD 0 emptyRecord)).valid = false
    ∧ ([badRec, goodRec].getD 0 emptyRecord
        ≠ ([badRec, goodRec].filter (fun r => (validateEventData false false 0 r).valid)).getD 0 emptyRecord
      ∧ [badRec, goodRec].getD 0 emptyRecord
          ∉ [badRec, goodRec].filter (fun r => (validateEventData false false 0 r).valid)) :=
  ⟨by decide, by decide,
    c10_attribution_amended.2.2 false false 0 [badRec, goodRec] emptyRecord 0
      (by decide) (by decide)⟩

/-- C10 counterexample: the batch `[goodRec, badRec]` contains a
validation-skipped record, yet the single submitted element's attribution
(`records[0] = goodRec`) equals its source, and processing the
one-status-per-submitted-unit response credits only `goodRec`: no outcome
is or can be attributed to `badRec` — refuting both the "only when no
record was excluded" clause and the "every batch containing a skipped
record" clause of the claim. -/
theorem c10_attribution_counterexample :
    (validateEventData false false 0 badRec).valid = false
    ∧ ([goodRec, badRec].filter (fun r => (validateEventData false false 0 r).valid)).length = 1
    ∧ [goodRec, badRec].getD 0 emptyRecord
        = ([goodRec, badRec].filter (fun r => (validateEventData false false 0 r).valid)).getD 0 emptyRecord
    ∧ (sendBatchToLinkedIn cfgBatch2 0 oneCreatedOracle [goodRec, badRec] (.initial 0) {}).successfulEvents.map
        (fun s => s.record) = [goodRec]
    ∧ (sendBatchToLinkedIn cfgBatch2 0 oneCreatedOracle [goodRec, badRec] (.initial 0) {}).failedRecords = [] := by
  decide

/-- Closed form of the webhook dispatch loop's event trace: a validated
record at index `i` contributes its request followed by one fixed delay
unless `i` is the last input index; a validation-rejected record
contributes nothing (its `continue` skips the request AND the delay). -/
theorem webhookLoop_trace (cfg : WebhookConfig) (now : Int)
    (oracle : Nat → WebhookOutcome) (total : Nat) :
    ∀ (ps : List (Nat × Record)) (st : WebhookState),
      (webhookLoop cfg now oracle total ps st).2
        = (ps.map (fun p =>
            if (validateEventData cfg.useConversionTime cfg.resetOldTimestamps now p.2).valid then
              WebhookEvent.request p.1 ::
                (if p.1 < total - 1 then [WebhookEvent.sleep (delayBetweenRequests cfg)] else [])
            else [])).flatten := by
  intro ps
  induction ps with
  | nil =>
      intro st
      simp [webhookLoop]
  | cons p rest ih =>
      intro st
      obtain ⟨i, r⟩ := p
      rw [webhookLoop]
      cases hv : (validateEventData cfg.useConversionTime cfg.resetOldTimestamps now r).valid <;>
        simp [hv, ih]

/-- The webhook loop classifies each processed record into exactly one of
sent/failed/skipped: run-end conservation for the single-unit sender. -/
theorem webhookLoop_conservation (cfg : WebhookConfig) (now : Int)
    (oracle : Nat → WebhookOutcome) (total : Nat) :
    ∀ (ps : List (Nat × Record)) (st : WebhookState),
      (webhookLoop cfg now oracle total ps st).1.sentRecords
          + (webhookLoop cfg now oracle total ps st).1.errors.length
          + (webhookLoop cfg now oracle total ps st).1.skippedRecords
        = st.sentRecords + st.errors.length + st.skippedRecords + ps.length := by
  intro ps
  induction ps with
  | nil =>
      intro st
      simp [webhookLoop]
  | cons p rest ih =>
      intro st
      obtain ⟨i, r⟩ := p
      rw [webhookLoop]
      cases hv : (validateEventData cfg.useConversionTime cfg.resetOldTimestamps now r).valid
      · simp only [hv, Bool.not_false, if_pos]
        rw [ih]
        simp
        omega
      · simp only [hv, Bool.not_true, Bool.false_eq_true, if_false]
        cases ho : oracle i with
        | ok s =>
            simp only [sendWebhookRequest, ho]
            rw [ih]
            simp
            omega
        | fail s msg =>
            simp only [sendWebhookRequest, ho]
            rw [ih]
            simp
            omega

/-- C8 (corrected): the inter-call delay of the single-unit sender is
`60000 / maxRequestsPerMinute` ms and is slept after the request of every
validated record whose index is below `n - 1` — i.e. after every call
except calls made at the last input index. For inputs whose records all
pass validation this is "after every call except the last" (the spec
scenario: 3 units at 20 requests/minute give exactly two 3000 ms delays
and none after the last unit — second and third conjuncts). When trailing
records are validation-skipped, however, a delay does follow the last
call (see the counterexample), which is what corrects the claim. -/
theorem c8_delay_schedule_amended :
    (∀ (cfg : WebhookConfig) (now : Int) (oracle : Nat → WebhookOutcome)
        (csvData : List Record),
      (webhookSendAllRecords cfg now oracle csvData).2
        = (csvData.enum.map (fun p =>
            if (validateEventData cfg.useConversionTime cfg.resetOldTimestamps now p.2).valid then
              WebhookEvent.request p.1 ::
                (if p.1 < csvData.length - 1 then
                  [WebhookEvent.sleep (delayBetweenRequests cfg)]
                else [])
            else [])).flatten)
    ∧ (webhookSendAllRecords {} 0 webhookOkOracle [goodRec, goodRec2, euroRec]).2
        = [WebhookEvent.request 0, WebhookEvent.sleep (60000 / 20),
           WebhookEvent.request 1, WebhookEvent.sleep (60000 / 20),
           WebhookEvent.request 2]
    ∧ ((60000 : ℚ) / 20 = 3000) := by
  refine ⟨?_, rfl, by norm_num⟩
  intro cfg now oracle csvData
  exact webhookLoop_trace cfg now oracle csvData.length csvData.enum {}

/-- C8 counterexample: with input `[goodRec, badRec]` (the second record
validation-rejected) the run makes exactly one call — its last — and still
sleeps the 3000 ms delay after it, because the delay guard tests the input
index (`i < n - 1`), not whether a later call will happen. -/
theorem c8_delay_counterexample :
    (webhookSendAllRecords {} 0 webhookOkOracle [goodRec, badRec]).2
      = [WebhookEvent.request 0, WebhookEvent.sleep (60000 / 20)]
    ∧ (validateEventData false false 0 badRec).valid = false
    ∧ (0 : ℚ) < 60000 / 20 := by
  refine ⟨rfl, by decide, by norm_num⟩

/-- C1 (code bug): the batched run violates run-end conservation. Input
`[badRec, goodRec]` (one record validation-rejected), batch size 2, every
HTTP call a transport failure: the rejected record is counted Skipped
during the first pass AND — because the transport-failure handler appends
the whole pre-validation batch to the failed list, contradicting the
code's own `Only count valid records as failed` comment — it also ends in
the terminal failed list after the retry. Run end: Sent = 0, terminal
Failed = 2, validation-rejected input records = 1, so
Sent + Failed + Skipped = 3 ≠ 2 = totalRecords (the model's
`skippedEvents` even counts 2 skip events, one per pass). The single-unit
webhook sender does satisfy the invariant — see
`webhookLoop_conservation`. -/
theorem c1_batched_run_accounting_violated :
    (sendRecordsBatch cfgBatch2 0 netFailOracle durZero [badRec, goodRec]).1.sentRecords = 0
    ∧ (sendRecordsBatch cfgBatch2 0 netFailOracle durZero [badRec, goodRec]).1.failedRecords.length = 2
    ∧ ([badRec, goodRec].countP
        (fun r => !(validateEventData false false 0 r).valid)) = 1
    ∧ (sendRecordsBatch cfgBatch2 0 netFailOracle durZero [badRec, goodRec]).1.skippedEvents = 2
    ∧ (sendRecordsBatch cfgBatch2 0 netFailOracle durZero [badRec, goodRec]).1.sentRecords
        + (sendRecordsBatch cfgBatch2 0 netFailOracle durZero [badRec, goodRec]).1.failedRecords.length
        + ([badRec, goodRec].countP
            (fun r => !(validateEventData false false 0 r).valid))
        ≠ [badRec, goodRec].length := by
  decide

end ZapierCapi
